import Mathlib

/-!
Shallow embedding of the gpt-mcp-server request-translation and
response-normalization core (src/index.ts, revisions 1.0.0, 1.1.0 and the
Responses-API revision 2.0.0), together with theorems settling the frozen
claims about its specification.

Conventions of the embedding:
- JavaScript objects become Lean structures.
- A JS object field that may be missing, present-with-`undefined`, or
  present-with-a-value is modelled by `JsField`.
- Optional caller parameters are `Option` values (`none` = not supplied).
- Numbers that are only copied, never computed with (temperature, top_p),
  are modelled as `Rat`; token counts as `Nat`.
- The upstream HTTP call is a parameter of each handler: an
  `Except ThrownValue response` value standing for "the awaited call either
  returned a response or threw".
-/

namespace GptMcp

/-! ## Constants (src/index.ts v1.1.0 and v2.0.0 headers) -/

def FALLBACK_MODEL : String := "gpt-5.1-codex"

def CHARACTER_LIMIT : Nat := 25000

/-- Default reasoning effort of revision 1.1.0 (`DEFAULT_REASONING_EFFORT = "minimal"`). -/
def DEFAULT_REASONING_EFFORT_V11 : String := "minimal"

/-- Default reasoning effort of revision 2.0.0 (`DEFAULT_REASONING_EFFORT = "low"`). -/
def DEFAULT_REASONING_EFFORT_V2 : String := "low"

/-! ## JS object fields -/

/-- A field slot of a built JS object: the key may be entirely absent,
present with value `undefined`, or present with a value. -/
inductive JsField (α : Type) where
  | absent : JsField α
  | undef : JsField α
  | val : α → JsField α
deriving DecidableEq

/-- Whether the object has the key at all (present with `undefined` counts as having the key). -/
def JsField.hasKey {α : Type} : JsField α → Bool
  | .absent => false
  | .undef => true
  | .val _ => true

/-- Conditional assignment `if (x !== undefined) obj.k = x` used by v1.1.0/v2.0.0. -/
def optField {α : Type} : Option α → JsField α
  | none => JsField.absent
  | some v => JsField.val v

/-- Unconditional object-literal entry `k: x` where `x` may be `undefined` (v1.0.0). -/
def literalField {α : Type} : Option α → JsField α
  | none => JsField.undef
  | some v => JsField.val v

/-! ## Tool parameters (zod-validated shapes) -/

/-- Output format enum of v1.1.0/v2.0.0. -/
inductive ResponseFormat where
  | markdown
  | json
deriving DecidableEq

/-- One `\x7brole, content\x7d` message. -/
structure ChatMessage where
  role : String
  content : String
deriving DecidableEq

/-- Validated parameters of `gpt_generate` in revision 1.1.0. -/
structure ParamsV11 where
  input : String
  model : Option String := none
  instructions : Option String := none
  reasoning_effort : Option String := none
  max_tokens : Option Nat := none
  temperature : Option Rat := none
  top_p : Option Rat := none
  response_format : ResponseFormat := ResponseFormat.markdown
deriving DecidableEq

/-- Validated parameters of `gpt_messages` in revision 1.1.0. -/
structure MessagesParamsV11 where
  messages : List ChatMessage
  model : Option String := none
  instructions : Option String := none
  reasoning_effort : Option String := none
  max_tokens : Option Nat := none
  temperature : Option Rat := none
  top_p : Option Rat := none
  response_format : ResponseFormat := ResponseFormat.markdown
deriving DecidableEq

/-- Validated parameters of `gpt_generate` in revision 1.0.0 (no response_format). -/
structure ParamsV10 where
  input : String
  model : Option String := none
  instructions : Option String := none
  reasoning_effort : Option String := none
  max_tokens : Option Nat := none
  temperature : Option Rat := none
  top_p : Option Rat := none
deriving DecidableEq

/-- Validated parameters of `gpt_messages` in revision 1.0.0 (no response_format). -/
structure MessagesParamsV10 where
  messages : List ChatMessage
  model : Option String := none
  instructions : Option String := none
  reasoning_effort : Option String := none
  max_tokens : Option Nat := none
  temperature : Option Rat := none
  top_p : Option Rat := none
deriving DecidableEq

/-- Validated parameters of `gpt_generate` in revision 2.0.0 (Responses API). -/
structure ParamsV2 where
  input : String
  model : Option String := none
  instructions : Option String := none
  reasoning_effort : Option String := none
  max_output_tokens : Option Nat := none
  temperature : Option Rat := none
  top_p : Option Rat := none
  response_format : ResponseFormat := ResponseFormat.markdown
deriving DecidableEq

/-- Validated parameters of `gpt_messages` in revision 2.0.0. -/
structure MessagesParamsV2 where
  messages : List ChatMessage
  model : Option String := none
  instructions : Option String := none
  reasoning_effort : Option String := none
  max_output_tokens : Option Nat := none
  temperature : Option Rat := none
  top_p : Option Rat := none
  response_format : ResponseFormat := ResponseFormat.markdown
deriving DecidableEq

/-! ## Request builders -/

/-- Built Chat Completions request object (`requestOptions` of v1.0.0/v1.1.0). -/
structure ChatRequest where
  model : String
  messages : List ChatMessage
  max_tokens : JsField Nat
  temperature : JsField Rat
  top_p : JsField Rat
  reasoning_effort : JsField String
deriving DecidableEq

/-- The leading developer message added by `if (params.instructions) messages.push(...)`;
an empty string is falsy in JS, so it is skipped. -/
def instrMessages (instructions : Option String) : List ChatMessage :=
  match instructions with
  | some s => if s = "" then [] else [⟨"developer", s⟩]
  | none => []

/-- Effective reasoning effort in v1.1.0: `params.reasoning_effort ?? DEFAULT_REASONING_EFFORT`. -/
def effectiveEffortV11 (reasoning_effort : Option String) : String :=
  reasoning_effort.getD DEFAULT_REASONING_EFFORT_V11

/-- Request built by the v1.1.0 `gpt_generate` handler: optional sampling
parameters are assigned only when defined, and `reasoning_effort` is always
assigned with the effective value. -/
def buildChatRequestV11 (p : ParamsV11) (activeModel : String) : ChatRequest :=
  { model := p.model.getD activeModel
    messages := instrMessages p.instructions ++ [⟨"user", p.input⟩]
    max_tokens := optField p.max_tokens
    temperature := optField p.temperature
    top_p := optField p.top_p
    reasoning_effort := JsField.val (effectiveEffortV11 p.reasoning_effort) }

/-- Request built by the v1.1.0 `gpt_messages` handler. -/
def buildChatMessagesRequestV11 (p : MessagesParamsV11) (activeModel : String) : ChatRequest :=
  { model := p.model.getD activeModel
    messages := instrMessages p.instructions ++ p.messages
    max_tokens := optField p.max_tokens
    temperature := optField p.temperature
    top_p := optField p.top_p
    reasoning_effort := JsField.val (effectiveEffortV11 p.reasoning_effort) }

/-- Request built by the v1.0.0 `gpt_generate` handler: the object literal
passed to `create` always carries the `max_tokens`, `temperature` and `top_p`
keys, whose value is `undefined` when the caller omitted them; no
reasoning key is set at all. -/
def buildChatRequestV10 (p : ParamsV10) (activeModel : String) : ChatRequest :=
  { model := p.model.getD activeModel
    messages := instrMessages p.instructions ++ [⟨"user", p.input⟩]
    max_tokens := literalField p.max_tokens
    temperature := literalField p.temperature
    top_p := literalField p.top_p
    reasoning_effort := JsField.absent }

/-- Request built by the v1.0.0 `gpt_messages` handler: like the v1.0.0
`gpt_generate` handler, the object literal passed to `create` always carries
the `max_tokens`, `temperature` and `top_p` keys, whose value is `undefined`
when the caller omitted them; no reasoning key is set at all. -/
def buildChatMessagesRequestV10 (p : MessagesParamsV10) (activeModel : String) : ChatRequest :=
  { model := p.model.getD activeModel
    messages := instrMessages p.instructions ++ p.messages
    max_tokens := literalField p.max_tokens
    temperature := literalField p.temperature
    top_p := literalField p.top_p
    reasoning_effort := JsField.absent }

/-- Input of a Responses API request: a plain prompt string or a message item list. -/
inductive ResponsesInput where
  | prompt : String → ResponsesInput
  | items : List ChatMessage → ResponsesInput
deriving DecidableEq

/-- Built Responses API request object (`requestOptions` of v2.0.0).
The `reasoning` field models the nested `\x7b effort \x7d` object by its effort string. -/
structure ResponsesRequest where
  model : String
  input : ResponsesInput
  instructions : JsField String
  reasoning : JsField String
  max_output_tokens : JsField Nat
  temperature : JsField Rat
  top_p : JsField Rat
deriving DecidableEq

/-- Effective reasoning effort in v2.0.0: `params.reasoning_effort ?? DEFAULT_REASONING_EFFORT`. -/
def effectiveEffortV2 (reasoning_effort : Option String) : String :=
  reasoning_effort.getD DEFAULT_REASONING_EFFORT_V2

/-- The v2.0.0 `instructions` assignment guarded by JS truthiness. -/
def instructionsField (instructions : Option String) : JsField String :=
  match instructions with
  | some s => if s = "" then JsField.absent else JsField.val s
  | none => JsField.absent

/-- The v2.0.0 reasoning configuration: suppressed entirely when the
effective effort is "none", otherwise `reasoning = \x7b effort \x7d`. -/
def reasoningField (effectiveEffort : String) : JsField String :=
  if effectiveEffort ≠ "none" then JsField.val effectiveEffort else JsField.absent

/-- Request built by the v2.0.0 `gpt_generate` handler. -/
def buildResponsesRequestV2 (p : ParamsV2) (activeModel : String) : ResponsesRequest :=
  { model := p.model.getD activeModel
    input := ResponsesInput.prompt p.input
    instructions := instructionsField p.instructions
    reasoning := reasoningField (effectiveEffortV2 p.reasoning_effort)
    max_output_tokens := optField p.max_output_tokens
    temperature := optField p.temperature
    top_p := optField p.top_p }

/-- Request built by the v2.0.0 `gpt_messages` handler. -/
def buildResponsesMessagesRequestV2 (p : MessagesParamsV2) (activeModel : String) : ResponsesRequest :=
  { model := p.model.getD activeModel
    input := ResponsesInput.items p.messages
    instructions := instructionsField p.instructions
    reasoning := reasoningField (effectiveEffortV2 p.reasoning_effort)
    max_output_tokens := optField p.max_output_tokens
    temperature := optField p.temperature
    top_p := optField p.top_p }

/-! ## Truncator -/

structure TruncateResult where
  text : String
  truncated : Bool
deriving DecidableEq

/-- The truncation notice appended by v1.1.0 (`max_tokens` hint). -/
def noticeV11 (originalLength : Nat) : String :=
  "\n\n---\n⚠️ **Response truncated** from " ++ toString originalLength ++ " to "
    ++ toString CHARACTER_LIMIT
    ++ " characters. Use `max_tokens` parameter to limit output size."

/-- The truncation notice appended by v2.0.0 (`max_output_tokens` hint). -/
def noticeV2 (originalLength : Nat) : String :=
  "\n\n---\n⚠️ **Response truncated** from " ++ toString originalLength ++ " to "
    ++ toString CHARACTER_LIMIT
    ++ " characters. Use `max_output_tokens` parameter to limit output size."

/-- `truncateResponse` of v1.1.0. -/
def truncateResponseV11 (text : String) : TruncateResult :=
  if text.length ≤ CHARACTER_LIMIT then ⟨text, false⟩
  else ⟨text.take CHARACTER_LIMIT ++ noticeV11 text.length, true⟩

/-- `truncateResponse` of v2.0.0. -/
def truncateResponseV2 (text : String) : TruncateResult :=
  if text.length ≤ CHARACTER_LIMIT then ⟨text, false⟩
  else ⟨text.take CHARACTER_LIMIT ++ noticeV2 text.length, true⟩

/-! ## Error classifier -/

/-- A value thrown by the upstream client: an `OpenAI.APIError` carrying an
optional HTTP status and a message, another `Error` carrying a message, or
any other thrown value given by its `String(...)` form. -/
inductive ThrownValue where
  | apiError (status : Option Nat) (message : String)
  | jsError (message : String)
  | other (stringified : String)
deriving DecidableEq

/-- `$\x7bstatus\x7d` interpolation: `undefined` prints as "undefined". -/
def statusText (status : Option Nat) : String :=
  match status with
  | some n => toString n
  | none => "undefined"

/-- Whether `pat` occurs at the head of `l`. -/
def leadsWith : List Char → List Char → Bool
  | [], _ => true
  | _ :: _, [] => false
  | p :: ps, c :: cs => p == c && leadsWith ps cs

/-- Whether `pat` occurs contiguously anywhere in `l` (JS `String.includes`). -/
def occursIn (pat : List Char) : List Char → Bool
  | [] => leadsWith pat []
  | c :: cs => leadsWith pat (c :: cs) || occursIn pat cs

/-- `message.includes("timeout")` after `toLowerCase()` (lowercasing modelled
characterwise over the string's character list). -/
def containsTimeout (message : String) : Bool :=
  occursIn "timeout".data (message.data.map Char.toLower)

/-- `handleOpenAIError` (identical in all three revisions). -/
def handleOpenAIError : ThrownValue → String
  | ThrownValue.apiError status message =>
    if status = some 401 then
      "Error: Invalid API key. Please verify your OPENAI_API_KEY at platform.openai.com/api-keys"
    else if status = some 429 then
      "Error: Rate limit exceeded. Please wait and try again, or check your API quota."
    else if status = some 402 then
      "Error: API quota exceeded. Please check your billing at platform.openai.com/usage"
    else if status = some 404 then
      "Error: Model not found. Please check the model name is correct."
    else if status = some 403 then
      "Error: Permission denied. Your API key may not have access to this model."
    else if containsTimeout message then
      "Error: Request timed out. Please try again with a shorter prompt."
    else
      "Error: OpenAI API error (" ++ statusText status ++ "): " ++ message
  | ThrownValue.jsError message => "Error: " ++ message
  | ThrownValue.other stringified => "Error: Unexpected error occurred: " ++ stringified

/-! ## Upstream response shapes -/

/-- Chat Completions usage counters. -/
structure ChatUsage where
  prompt_tokens : Nat
  completion_tokens : Nat
  total_tokens : Nat
deriving DecidableEq

/-- `choices[i].message` (its `content` may be null). -/
structure ChoiceMessage where
  content : Option String
deriving DecidableEq

/-- One element of `response.choices`; `message` is accessed with `?.`. -/
structure ChatChoice where
  message : Option ChoiceMessage
deriving DecidableEq

/-- A Chat Completions response as consumed by the v1.0.0/v1.1.0 handlers. -/
structure ChatResponse where
  choices : List ChatChoice
  usage : Option ChatUsage
deriving DecidableEq

/-- `response.choices[0]?.message?.content || ""` (null, undefined and the
empty string all collapse to the empty string). -/
def chatRawText (r : ChatResponse) : String :=
  ((r.choices.head?.bind (fun c => c.message)).bind (fun m => m.content)).getD ""

/-- Responses API usage counters. -/
structure RespUsage where
  input_tokens : Nat
  output_tokens : Nat
  total_tokens : Nat
deriving DecidableEq

/-- One content part of an output item (`content[].type`, `content[].text`). -/
structure ContentPart where
  type : String
  text : String
deriving DecidableEq

/-- One element of `response.output`; `content` may be absent. -/
structure OutputItem where
  type : String
  content : Option (List ContentPart)
deriving DecidableEq

/-- A Responses API response as consumed by the v2.0.0 handlers. -/
structure ResponsesResponse where
  output : Option (List OutputItem)
  usage : Option RespUsage
  model : String
deriving DecidableEq

/-- The collection loop of `extractResponseText`: for every output item of
type "message" with a content array, push the text of every content part of
type "output_text" whose text is truthy (non-empty). -/
def collectOutputTexts : List OutputItem → List String
  | [] => []
  | item :: rest =>
    (if item.type = "message" then
      match item.content with
      | some parts =>
        (parts.filter (fun c => c.type = "output_text" ∧ c.text ≠ "")).map (fun c => c.text)
      | none => []
    else []) ++ collectOutputTexts rest

/-- `extractResponseText` of v2.0.0: collect all matching part texts into one
flat list and join it with blank lines. -/
def extractResponseText (r : ResponsesResponse) : String :=
  match r.output with
  | none => ""
  | some items =>
    if items.isEmpty then ""
    else String.intercalate "\n\n" (collectOutputTexts items)

/-! ## JSON serialization (`JSON.stringify(structuredOutput, null, 2)`) -/

/-- Lowercase hex digit of `n < 16`. -/
def hexDigit (n : Nat) : Char :=
  if n < 10 then Char.ofNat (48 + n) else Char.ofNat (87 + n)

/-- JSON escaping of one character, as performed by `JSON.stringify`. -/
def escapeChar (c : Char) : String :=
  if c = '"' then "\\\""
  else if c = '\\' then "\\\\"
  else if c = '\n' then "\\n"
  else if c = '\r' then "\\r"
  else if c = '\t' then "\\t"
  else if c.toNat = 8 then "\\b"
  else if c.toNat = 12 then "\\f"
  else if c.toNat < 32 then
    "\\u00" ++ String.singleton (hexDigit (c.toNat / 16)) ++ String.singleton (hexDigit (c.toNat % 16))
  else String.singleton c

/-- JSON escaping of a character list. -/
def jsonEscapeList : List Char → String
  | [] => ""
  | c :: cs => escapeChar c ++ jsonEscapeList cs

/-- A JSON string literal for `s`. -/
def jsonString (s : String) : String :=
  "\"" ++ jsonEscapeList s.data ++ "\""

/-- The serialized `"usage"` entry (preceded by its separating comma), or the
empty string when `usage` is `undefined`: `JSON.stringify` omits
undefined-valued properties. -/
def chatUsageEntry : Option ChatUsage → String
  | none => ""
  | some u =>
    ",\n  \"usage\": \x7b\n    \"prompt_tokens\": " ++ toString u.prompt_tokens
      ++ ",\n    \"completion_tokens\": " ++ toString u.completion_tokens
      ++ ",\n    \"total_tokens\": " ++ toString u.total_tokens ++ "\n  \x7d"

/-- The serialized `"usage"` entry of the Responses variant. -/
def respUsageEntry : Option RespUsage → String
  | none => ""
  | some u =>
    ",\n  \"usage\": \x7b\n    \"input_tokens\": " ++ toString u.input_tokens
      ++ ",\n    \"output_tokens\": " ++ toString u.output_tokens
      ++ ",\n    \"total_tokens\": " ++ toString u.total_tokens ++ "\n  \x7d"

/-- The serialized trailing `"truncated"` entry and closing brace. -/
def truncatedEntry (truncated : Bool) : String :=
  ",\n  \"truncated\": " ++ (if truncated then "true" else "false") ++ "\n\x7d"

/-! ## Structured outputs and handlers -/

/-- `structuredOutput` of the v1.1.0 `gpt_generate` handler. -/
structure ChatStructuredOutput where
  text : String
  model : String
  usage : Option ChatUsage
  truncated : Bool
deriving DecidableEq

/-- `JSON.stringify(structuredOutput, null, 2)` for the v1.1.0 `gpt_generate` shape. -/
def stringifyChatStructured (o : ChatStructuredOutput) : String :=
  "\x7b\n  \"text\": " ++ jsonString o.text
    ++ ",\n  \"model\": " ++ jsonString o.model
    ++ chatUsageEntry o.usage
    ++ truncatedEntry o.truncated

/-- The structured output assembled by the v1.1.0 `gpt_generate` handler
before formatting and truncation (its `truncated` field is initialized to
`false` and only mutated after serialization). -/
def chatStructuredOutput0 (p : ParamsV11) (activeModel : String) (r : ChatResponse) :
    ChatStructuredOutput :=
  { text := chatRawText r
    model := (buildChatRequestV11 p activeModel).model
    usage := r.usage.map (fun u => ⟨u.prompt_tokens, u.completion_tokens, u.total_tokens⟩)
    truncated := false }

/-- The markdown-format text of the v1.1.0 handlers: the raw text plus a
usage footer when usage is present. -/
def chatMarkdownText (r : ChatResponse) : String :=
  chatRawText r ++
    match r.usage with
    | some u =>
      "\n\n---\n**Usage:** " ++ toString u.prompt_tokens ++ " prompt + "
        ++ toString u.completion_tokens ++ " completion = "
        ++ toString u.total_tokens ++ " total tokens"
    | none => ""

/-- A tool invocation result: the text content block, the `isError` flag, and
the `structuredContent` field (absent on the error path). -/
structure ToolResult (σ : Type) where
  contentText : String
  isError : Bool
  structuredContent : Option σ
deriving DecidableEq

/-- The v1.1.0 `gpt_generate` handler: on upstream success, assemble the
structured output, format (JSON serialization or markdown plus footer),
truncate the formatted text, then overwrite the structured `truncated` flag;
on a thrown value, return the classified error with `isError`. -/
def gptGenerateV11 (p : ParamsV11) (activeModel : String)
    (upstream : Except ThrownValue ChatResponse) : ToolResult ChatStructuredOutput :=
  match upstream with
  | Except.error e => ⟨handleOpenAIError e, true, none⟩
  | Except.ok r =>
    let so := chatStructuredOutput0 p activeModel r
    let textContent :=
      match p.response_format with
      | ResponseFormat.json => stringifyChatStructured so
      | ResponseFormat.markdown => chatMarkdownText r
    let tr := truncateResponseV11 textContent
    ⟨tr.text, false, some { so with truncated := tr.truncated }⟩

/-- `structuredOutput` of the v1.1.0 `gpt_messages` handler (adds `message_count`). -/
structure MsgStructuredOutput where
  text : String
  model : String
  message_count : Nat
  usage : Option ChatUsage
  truncated : Bool
deriving DecidableEq

/-- `JSON.stringify(structuredOutput, null, 2)` for the v1.1.0 `gpt_messages` shape. -/
def stringifyMsgStructured (o : MsgStructuredOutput) : String :=
  "\x7b\n  \"text\": " ++ jsonString o.text
    ++ ",\n  \"model\": " ++ jsonString o.model
    ++ ",\n  \"message_count\": " ++ toString o.message_count
    ++ chatUsageEntry o.usage
    ++ truncatedEntry o.truncated

/-- The structured output assembled by the v1.1.0 `gpt_messages` handler
before formatting and truncation. -/
def msgStructuredOutput0 (p : MessagesParamsV11) (activeModel : String) (r : ChatResponse) :
    MsgStructuredOutput :=
  { text := chatRawText r
    model := (buildChatMessagesRequestV11 p activeModel).model
    message_count := p.messages.length
    usage := r.usage.map (fun u => ⟨u.prompt_tokens, u.completion_tokens, u.total_tokens⟩)
    truncated := false }

/-- The v1.1.0 `gpt_messages` handler. -/
def gptMessagesV11 (p : MessagesParamsV11) (activeModel : String)
    (upstream : Except ThrownValue ChatResponse) : ToolResult MsgStructuredOutput :=
  match upstream with
  | Except.error e => ⟨handleOpenAIError e, true, none⟩
  | Except.ok r =>
    let so := msgStructuredOutput0 p activeModel r
    let textContent :=
      match p.response_format with
      | ResponseFormat.json => stringifyMsgStructured so
      | ResponseFormat.markdown => chatMarkdownText r
    let tr := truncateResponseV11 textContent
    ⟨tr.text, false, some { so with truncated := tr.truncated }⟩

/-- `structuredOutput` of the v2.0.0 `gpt_generate` handler. -/
structure RespStructuredOutput where
  text : String
  model : String
  usage : Option RespUsage
  truncated : Bool
deriving DecidableEq

/-- `JSON.stringify(structuredOutput, null, 2)` for the v2.0.0 `gpt_generate` shape. -/
def stringifyRespStructured (o : RespStructuredOutput) : String :=
  "\x7b\n  \"text\": " ++ jsonString o.text
    ++ ",\n  \"model\": " ++ jsonString o.model
    ++ respUsageEntry o.usage
    ++ truncatedEntry o.truncated

/-- The structured output assembled by the v2.0.0 `gpt_generate` handler
before formatting and truncation (`model` echoes `response.model`). -/
def respStructuredOutput0 (r : ResponsesResponse) : RespStructuredOutput :=
  { text := extractResponseText r
    model := r.model
    usage := r.usage.map (fun u => ⟨u.input_tokens, u.output_tokens, u.total_tokens⟩)
    truncated := false }

/-- The markdown-format text of the v2.0.0 handlers. -/
def respMarkdownText (r : ResponsesResponse) : String :=
  extractResponseText r ++
    match r.usage with
    | some u =>
      "\n\n---\n**Usage:** " ++ toString u.input_tokens ++ " input + "
        ++ toString u.output_tokens ++ " output = "
        ++ toString u.total_tokens ++ " total tokens"
    | none => ""

/-- The v2.0.0 `gpt_generate` handler. -/
def gptGenerateV2 (p : ParamsV2)
    (upstream : Except ThrownValue ResponsesResponse) : ToolResult RespStructuredOutput :=
  match upstream with
  | Except.error e => ⟨handleOpenAIError e, true, none⟩
  | Except.ok r =>
    let so := respStructuredOutput0 r
    let textContent :=
      match p.response_format with
      | ResponseFormat.json => stringifyRespStructured so
      | ResponseFormat.markdown => respMarkdownText r
    let tr := truncateResponseV2 textContent
    ⟨tr.text, false, some { so with truncated := tr.truncated }⟩

/-- `structuredOutput` of the v2.0.0 `gpt_messages` handler (adds `message_count`). -/
structure MsgRespStructuredOutput where
  text : String
  model : String
  message_count : Nat
  usage : Option RespUsage
  truncated : Bool
deriving DecidableEq

/-- `JSON.stringify(structuredOutput, null, 2)` for the v2.0.0 `gpt_messages` shape. -/
def stringifyMsgRespStructured (o : MsgRespStructuredOutput) : String :=
  "\x7b\n  \"text\": " ++ jsonString o.text
    ++ ",\n  \"model\": " ++ jsonString o.model
    ++ ",\n  \"message_count\": " ++ toString o.message_count
    ++ respUsageEntry o.usage
    ++ truncatedEntry o.truncated

/-- The structured output assembled by the v2.0.0 `gpt_messages` handler
before formatting and truncation. -/
def msgRespStructuredOutput0 (p : MessagesParamsV2) (r : ResponsesResponse) :
    MsgRespStructuredOutput :=
  { text := extractResponseText r
    model := r.model
    message_count := p.messages.length
    usage := r.usage.map (fun u => ⟨u.input_tokens, u.output_tokens, u.total_tokens⟩)
    truncated := false }

/-- The v2.0.0 `gpt_messages` handler. -/
def gptMessagesV2 (p : MessagesParamsV2)
    (upstream : Except ThrownValue ResponsesResponse) : ToolResult MsgRespStructuredOutput :=
  match upstream with
  | Except.error e => ⟨handleOpenAIError e, true, none⟩
  | Except.ok r =>
    let so := msgRespStructuredOutput0 p r
    let textContent :=
      match p.response_format with
      | ResponseFormat.json => stringifyMsgRespStructured so
      | ResponseFormat.markdown => respMarkdownText r
    let tr := truncateResponseV2 textContent
    ⟨tr.text, false, some { so with truncated := tr.truncated }⟩

/-! ## Model Selector (startup validation) -/

/-- The two process-lifetime scalars `ACTIVE_MODEL` and `MODEL_FALLBACK_USED`. -/
structure ModelState where
  activeModel : String
  fallbackUsed : Bool
deriving DecidableEq

/-- JS truthiness of the configured model string (`undefined` and `""` are falsy). -/
def isTruthy (configured : Option String) : Bool :=
  match configured with
  | none => false
  | some s => s ≠ ""

/-- Initialization `ACTIVE_MODEL = CONFIGURED_MODEL || FALLBACK_MODEL`. -/
def initialActiveModel (configured : Option String) (fallback : String) : String :=
  match configured with
  | some s => if s = "" then fallback else s
  | none => fallback

/-- `validateConfiguredModel` as a state transformer: `configured` is the
`GPT_MODEL` environment value, `listing` the outcome of the one
`openai.models.list()` round-trip (error message on failure). The function
returns the process state after startup. -/
def validateConfiguredModel (configured : Option String) (fallback : String)
    (listing : Except String (List String)) : ModelState :=
  let init : ModelState := ⟨initialActiveModel configured fallback, false⟩
  match configured with
  | none => init
  | some c =>
    if c = "" then init
    else
      match listing with
      | Except.ok ids => if c ∈ ids then init else ⟨fallback, true⟩
      | Except.error _ => init

/-! ## Tool dispatch after startup -/

/-- One tool invocation arriving after startup, carrying the outcome the
upstream call would have. -/
inductive ToolCall where
  | genCall (p : ParamsV11) (upstream : Except ThrownValue ChatResponse)
  | msgCall (p : MessagesParamsV11) (upstream : Except ThrownValue ChatResponse)
  | statusCall

/-- The visible outcome of one tool invocation. -/
inductive ToolOutcome where
  | generated (r : ToolResult ChatStructuredOutput)
  | conversed (r : ToolResult MsgStructuredOutput)
  | statusReport (active_model : String) (fallback_used : Bool)

/-- One tool invocation: every handler only reads the model state
(`ACTIVE_MODEL`, `MODEL_FALLBACK_USED`) and performs no assignment to it. -/
def stepTool (st : ModelState) : ToolCall → ModelState × ToolOutcome
  | ToolCall.genCall p upstream => (st, ToolOutcome.generated (gptGenerateV11 p st.activeModel upstream))
  | ToolCall.msgCall p upstream => (st, ToolOutcome.conversed (gptMessagesV11 p st.activeModel upstream))
  | ToolCall.statusCall => (st, ToolOutcome.statusReport st.activeModel st.fallbackUsed)

/-- The server loop after startup: handle each arriving call in order,
threading the process state. -/
def runServer : ModelState → List ToolCall → ModelState × List ToolOutcome
  | st, [] => (st, [])
  | st, c :: cs =>
    let p := stepTool st c
    let rest := runServer p.1 cs
    (rest.1, p.2 :: rest.2)

/-! ## Helper lemmas -/

theorem truncateResponseV11_of_le {t : String} (h : t.length ≤ CHARACTER_LIMIT) :
    truncateResponseV11 t = ⟨t, false⟩ := by
  simp [truncateResponseV11, h]

theorem truncateResponseV2_of_le {t : String} (h : t.length ≤ CHARACTER_LIMIT) :
    truncateResponseV2 t = ⟨t, false⟩ := by
  simp [truncateResponseV2, h]

theorem truncateResponseV11_of_gt {t : String} (h : CHARACTER_LIMIT < t.length) :
    truncateResponseV11 t = ⟨t.take CHARACTER_LIMIT ++ noticeV11 t.length, true⟩ := by
  simp [truncateResponseV11, Nat.not_le_of_gt h]

theorem truncateResponseV2_of_gt {t : String} (h : CHARACTER_LIMIT < t.length) :
    truncateResponseV2 t = ⟨t.take CHARACTER_LIMIT ++ noticeV2 t.length, true⟩ := by
  simp [truncateResponseV2, Nat.not_le_of_gt h]

/-- The tool handlers never write the model state. -/
theorem runServer_fst (st : ModelState) (calls : List ToolCall) :
    (runServer st calls).1 = st := by
  induction calls with
  | nil => rfl
  | cons c cs ih => cases c <;> simpa [runServer, stepTool] using ih

/-- A concrete 25001-character text used to exercise the truncation branch. -/
def bigText : String := String.mk (List.replicate 25001 'a')

theorem bigText_data : bigText.data = List.replicate 25001 'a' := rfl

theorem bigText_length : bigText.length = 25001 := by
  rw [bigText, String.length_mk, List.length_replicate]

theorem escapeChar_a : escapeChar 'a' = "a" := by decide

theorem length_jsonEscapeList_replicate (n : Nat) :
    (jsonEscapeList (List.replicate n 'a')).length = n := by
  induction n with
  | zero => rfl
  | succ k ih =>
    rw [List.replicate_succ]
    show (escapeChar 'a' ++ jsonEscapeList (List.replicate k 'a')).length = k + 1
    rw [escapeChar_a, String.length_append, ih]
    have h1 : ("a" : String).length = 1 := rfl
    rw [h1]
    omega

theorem stringifyChat_big :
    CHARACTER_LIMIT < (stringifyChatStructured ⟨"", bigText, none, false⟩).length := by
  simp only [stringifyChatStructured, jsonString, chatUsageEntry, truncatedEntry,
    bigText_data, length_jsonEscapeList_replicate, String.length_append]
  decide

theorem stringifyResp_big :
    CHARACTER_LIMIT < (stringifyRespStructured ⟨"", bigText, none, false⟩).length := by
  simp only [stringifyRespStructured, jsonString, respUsageEntry, truncatedEntry,
    bigText_data, length_jsonEscapeList_replicate, String.length_append]
  decide

theorem stringifyMsg_big :
    CHARACTER_LIMIT < (stringifyMsgStructured ⟨"", bigText, 1, none, false⟩).length := by
  simp only [stringifyMsgStructured, jsonString, chatUsageEntry, truncatedEntry,
    bigText_data, length_jsonEscapeList_replicate, String.length_append]
  decide

theorem stringifyMsgResp_big :
    CHARACTER_LIMIT < (stringifyMsgRespStructured ⟨"", bigText, 1, none, false⟩).length := by
  simp only [stringifyMsgRespStructured, jsonString, respUsageEntry, truncatedEntry,
    bigText_data, length_jsonEscapeList_replicate, String.length_append]
  decide

/-! ## Claim theorems -/

/-- Claim C2: for every string `t`, if `t` is within the fixed character
limit, `truncateResponse` returns `t` unchanged with `truncated = false`; if
`t` exceeds the limit, the returned text starts with exactly the first
`CHARACTER_LIMIT` characters of `t`, the flag is `true`, and the appended
notice mentions both the original length and the limit. Both revisions of
`truncateResponse` (v1.1.0 and v2.0.0) are covered. -/
theorem claim2_truncate (t : String) :
    (t.length ≤ CHARACTER_LIMIT →
      truncateResponseV11 t = ⟨t, false⟩ ∧ truncateResponseV2 t = ⟨t, false⟩) ∧
    (CHARACTER_LIMIT < t.length →
      ((truncateResponseV11 t).truncated = true ∧
        (∃ rest, (truncateResponseV11 t).text = t.take CHARACTER_LIMIT ++ rest) ∧
        (∃ a b c, (truncateResponseV11 t).text
          = a ++ toString t.length ++ b ++ toString CHARACTER_LIMIT ++ c)) ∧
      ((truncateResponseV2 t).truncated = true ∧
        (∃ rest, (truncateResponseV2 t).text = t.take CHARACTER_LIMIT ++ rest) ∧
        (∃ a b c, (truncateResponseV2 t).text
          = a ++ toString t.length ++ b ++ toString CHARACTER_LIMIT ++ c))) := by
  constructor
  · intro h
    exact ⟨truncateResponseV11_of_le h, truncateResponseV2_of_le h⟩
  · intro h
    rw [truncateResponseV11_of_gt h, truncateResponseV2_of_gt h]
    refine ⟨⟨rfl, ⟨noticeV11 t.length, rfl⟩, ?_⟩, rfl, ⟨noticeV2 t.length, rfl⟩, ?_⟩
    · refine ⟨t.take CHARACTER_LIMIT ++ "\n\n---\n⚠️ **Response truncated** from ", " to ",
        " characters. Use `max_tokens` parameter to limit output size.", ?_⟩
      simp [noticeV11, String.append_assoc]
    · refine ⟨t.take CHARACTER_LIMIT ++ "\n\n---\n⚠️ **Response truncated** from ", " to ",
        " characters. Use `max_output_tokens` parameter to limit output size.", ?_⟩
      simp [noticeV2, String.append_assoc]

/-- Witness for C2: both branches exercised at concrete inputs, a two-character
string and a 25001-character string. -/
theorem claim2_truncate_w :
    (("hi" : String).length ≤ CHARACTER_LIMIT ∧ truncateResponseV11 "hi" = ⟨"hi", false⟩) ∧
    (CHARACTER_LIMIT < bigText.length ∧ (truncateResponseV11 bigText).truncated = true) := by
  have hle : ("hi" : String).length ≤ CHARACTER_LIMIT := by decide
  have hgt : CHARACTER_LIMIT < bigText.length := by rw [bigText_length]; decide
  exact ⟨⟨hle, ((claim2_truncate "hi").1 hle).1⟩, hgt, ((claim2_truncate bigText).2 hgt).1.1⟩

/-- Claim C3: in all four generation handlers (generate and converse, of
v1.1.0 Chat Completions and of v2.0.0 Responses API), truncation is applied
to the final formatted text — the JSON serialization of the structured
output (which for converse includes `message_count`), or the markdown text
including the usage footer — not to the raw model output; for
`response_format = json` the returned text is
`truncateResponse(JSON.stringify(structuredOutput)).text`, so a JSON payload
exceeding the limit is cut after its first `CHARACTER_LIMIT` characters,
mid-structure. -/
theorem claim3_truncate_final_text (p : ParamsV11) (m1 : MessagesParamsV11) (am : String)
    (r : ChatResponse) (q : ParamsV2) (m2 : MessagesParamsV2) (s : ResponsesResponse) :
    (p.response_format = ResponseFormat.json →
      (gptGenerateV11 p am (Except.ok r)).contentText
        = (truncateResponseV11 (stringifyChatStructured (chatStructuredOutput0 p am r))).text) ∧
    (p.response_format = ResponseFormat.markdown →
      (gptGenerateV11 p am (Except.ok r)).contentText
        = (truncateResponseV11 (chatMarkdownText r)).text) ∧
    (p.response_format = ResponseFormat.json →
      CHARACTER_LIMIT < (stringifyChatStructured (chatStructuredOutput0 p am r)).length →
      (gptGenerateV11 p am (Except.ok r)).contentText
        = (stringifyChatStructured (chatStructuredOutput0 p am r)).take CHARACTER_LIMIT
          ++ noticeV11 (stringifyChatStructured (chatStructuredOutput0 p am r)).length) ∧
    (q.response_format = ResponseFormat.json →
      (gptGenerateV2 q (Except.ok s)).contentText
        = (truncateResponseV2 (stringifyRespStructured (respStructuredOutput0 s))).text) ∧
    (q.response_format = ResponseFormat.markdown →
      (gptGenerateV2 q (Except.ok s)).contentText
        = (truncateResponseV2 (respMarkdownText s)).text) ∧
    (q.response_format = ResponseFormat.json →
      CHARACTER_LIMIT < (stringifyRespStructured (respStructuredOutput0 s)).length →
      (gptGenerateV2 q (Except.ok s)).contentText
        = (stringifyRespStructured (respStructuredOutput0 s)).take CHARACTER_LIMIT
          ++ noticeV2 (stringifyRespStructured (respStructuredOutput0 s)).length) ∧
    (m1.response_format = ResponseFormat.json →
      (gptMessagesV11 m1 am (Except.ok r)).contentText
        = (truncateResponseV11 (stringifyMsgStructured (msgStructuredOutput0 m1 am r))).text) ∧
    (m1.response_format = ResponseFormat.markdown →
      (gptMessagesV11 m1 am (Except.ok r)).contentText
        = (truncateResponseV11 (chatMarkdownText r)).text) ∧
    (m1.response_format = ResponseFormat.json →
      CHARACTER_LIMIT < (stringifyMsgStructured (msgStructuredOutput0 m1 am r)).length →
      (gptMessagesV11 m1 am (Except.ok r)).contentText
        = (stringifyMsgStructured (msgStructuredOutput0 m1 am r)).take CHARACTER_LIMIT
          ++ noticeV11 (stringifyMsgStructured (msgStructuredOutput0 m1 am r)).length) ∧
    (m2.response_format = ResponseFormat.json →
      (gptMessagesV2 m2 (Except.ok s)).contentText
        = (truncateResponseV2 (stringifyMsgRespStructured (msgRespStructuredOutput0 m2 s))).text) ∧
    (m2.response_format = ResponseFormat.markdown →
      (gptMessagesV2 m2 (Except.ok s)).contentText
        = (truncateResponseV2 (respMarkdownText s)).text) ∧
    (m2.response_format = ResponseFormat.json →
      CHARACTER_LIMIT < (stringifyMsgRespStructured (msgRespStructuredOutput0 m2 s)).length →
      (gptMessagesV2 m2 (Except.ok s)).contentText
        = (stringifyMsgRespStructured (msgRespStructuredOutput0 m2 s)).take CHARACTER_LIMIT
          ++ noticeV2 (stringifyMsgRespStructured (msgRespStructuredOutput0 m2 s)).length) := by
  refine ⟨fun h => ?_, fun h => ?_, fun h hlen => ?_, fun h => ?_, fun h => ?_, fun h hlen => ?_,
    fun h => ?_, fun h => ?_, fun h hlen => ?_, fun h => ?_, fun h => ?_, fun h hlen => ?_⟩
  · simp [gptGenerateV11, h]
  · simp [gptGenerateV11, h]
  · simp [gptGenerateV11, h, truncateResponseV11_of_gt hlen]
  · simp [gptGenerateV2, h]
  · simp [gptGenerateV2, h]
  · simp [gptGenerateV2, h, truncateResponseV2_of_gt hlen]
  · simp [gptMessagesV11, h]
  · simp [gptMessagesV11, h]
  · simp [gptMessagesV11, h, truncateResponseV11_of_gt hlen]
  · simp [gptMessagesV2, h]
  · simp [gptMessagesV2, h]
  · simp [gptMessagesV2, h, truncateResponseV2_of_gt hlen]

/-- Witness for C3: the json, markdown and over-limit json branches of all
four handlers at concrete inputs, the over-limit ones with a 25001-character
model identifier echoed into the serialization. -/
theorem claim3_truncate_final_text_w :
    ((gptGenerateV11 { input := "hi", response_format := ResponseFormat.json } "m"
          (Except.ok ⟨[], none⟩)).contentText
        = (truncateResponseV11 (stringifyChatStructured
            (chatStructuredOutput0 { input := "hi", response_format := ResponseFormat.json }
              "m" ⟨[], none⟩))).text ∧
      (gptGenerateV11 { input := "hi" } "m" (Except.ok ⟨[], none⟩)).contentText
        = (truncateResponseV11 (chatMarkdownText ⟨[], none⟩)).text ∧
      CHARACTER_LIMIT < (stringifyChatStructured
        (chatStructuredOutput0 { input := "hi", response_format := ResponseFormat.json }
          bigText ⟨[], none⟩)).length ∧
      (gptGenerateV11 { input := "hi", response_format := ResponseFormat.json } bigText
          (Except.ok ⟨[], none⟩)).contentText
        = (stringifyChatStructured
            (chatStructuredOutput0 { input := "hi", response_format := ResponseFormat.json }
              bigText ⟨[], none⟩)).take CHARACTER_LIMIT
          ++ noticeV11 (stringifyChatStructured
              (chatStructuredOutput0 { input := "hi", response_format := ResponseFormat.json }
                bigText ⟨[], none⟩)).length) ∧
    ((gptGenerateV2 { input := "hi", response_format := ResponseFormat.json }
          (Except.ok ⟨none, none, "m"⟩)).contentText
        = (truncateResponseV2 (stringifyRespStructured
            (respStructuredOutput0 ⟨none, none, "m"⟩))).text ∧
      (gptGenerateV2 { input := "hi" } (Except.ok ⟨none, none, "m"⟩)).contentText
        = (truncateResponseV2 (respMarkdownText ⟨none, none, "m"⟩)).text ∧
      CHARACTER_LIMIT < (stringifyRespStructured (respStructuredOutput0 ⟨none, none, bigText⟩)).length ∧
      (gptGenerateV2 { input := "hi", response_format := ResponseFormat.json }
          (Except.ok ⟨none, none, bigText⟩)).contentText
        = (stringifyRespStructured (respStructuredOutput0 ⟨none, none, bigText⟩)).take CHARACTER_LIMIT
          ++ noticeV2 (stringifyRespStructured (respStructuredOutput0 ⟨none, none, bigText⟩)).length) ∧
    ((gptMessagesV11 { messages := [⟨"user", "q"⟩], response_format := ResponseFormat.json } "m"
          (Except.ok ⟨[], none⟩)).contentText
        = (truncateResponseV11 (stringifyMsgStructured
            (msgStructuredOutput0
              { messages := [⟨"user", "q"⟩], response_format := ResponseFormat.json }
              "m" ⟨[], none⟩))).text ∧
      (gptMessagesV11 { messages := [⟨"user", "q"⟩] } "m" (Except.ok ⟨[], none⟩)).contentText
        = (truncateResponseV11 (chatMarkdownText ⟨[], none⟩)).text ∧
      CHARACTER_LIMIT < (stringifyMsgStructured
        (msgStructuredOutput0 { messages := [⟨"user", "q"⟩], response_format := ResponseFormat.json }
          bigText ⟨[], none⟩)).length ∧
      (gptMessagesV11 { messages := [⟨"user", "q"⟩], response_format := ResponseFormat.json } bigText
          (Except.ok ⟨[], none⟩)).contentText
        = (stringifyMsgStructured
            (msgStructuredOutput0
              { messages := [⟨"user", "q"⟩], response_format := ResponseFormat.json }
              bigText ⟨[], none⟩)).take CHARACTER_LIMIT
          ++ noticeV11 (stringifyMsgStructured
              (msgStructuredOutput0
                { messages := [⟨"user", "q"⟩], response_format := ResponseFormat.json }
                bigText ⟨[], none⟩)).length) ∧
    ((gptMessagesV2 { messages := [⟨"user", "q"⟩], response_format := ResponseFormat.json }
          (Except.ok ⟨none, none, "m"⟩)).contentText
        = (truncateResponseV2 (stringifyMsgRespStructured
            (msgRespStructuredOutput0
              { messages := [⟨"user", "q"⟩], response_format := ResponseFormat.json }
              ⟨none, none, "m"⟩))).text ∧
      (gptMessagesV2 { messages := [⟨"user", "q"⟩] } (Except.ok ⟨none, none, "m"⟩)).contentText
        = (truncateResponseV2 (respMarkdownText ⟨none, none, "m"⟩)).text ∧
      CHARACTER_LIMIT < (stringifyMsgRespStructured
        (msgRespStructuredOutput0
          { messages := [⟨"user", "q"⟩], response_format := ResponseFormat.json }
          ⟨none, none, bigText⟩)).length ∧
      (gptMessagesV2 { messages := [⟨"user", "q"⟩], response_format := ResponseFormat.json }
          (Except.ok ⟨none, none, bigText⟩)).contentText
        = (stringifyMsgRespStructured
            (msgRespStructuredOutput0
              { messages := [⟨"user", "q"⟩], response_format := ResponseFormat.json }
              ⟨none, none, bigText⟩)).take CHARACTER_LIMIT
          ++ noticeV2 (stringifyMsgRespStructured
              (msgRespStructuredOutput0
                { messages := [⟨"user", "q"⟩], response_format := ResponseFormat.json }
                ⟨none, none, bigText⟩)).length) := by
  have hbig : CHARACTER_LIMIT < (stringifyChatStructured
      (chatStructuredOutput0 { input := "hi", response_format := ResponseFormat.json }
        bigText ⟨[], none⟩)).length := by
    have hso : chatStructuredOutput0 { input := "hi", response_format := ResponseFormat.json }
        bigText ⟨[], none⟩ = ⟨"", bigText, none, false⟩ := rfl
    rw [hso]
    exact stringifyChat_big
  have hbig2 : CHARACTER_LIMIT
      < (stringifyRespStructured (respStructuredOutput0 ⟨none, none, bigText⟩)).length := by
    have hso : respStructuredOutput0 ⟨none, none, bigText⟩ = ⟨"", bigText, none, false⟩ := rfl
    rw [hso]
    exact stringifyResp_big
  have hbig3 : CHARACTER_LIMIT < (stringifyMsgStructured
      (msgStructuredOutput0 { messages := [⟨"user", "q"⟩], response_format := ResponseFormat.json }
        bigText ⟨[], none⟩)).length := by
    have hso : msgStructuredOutput0
        { messages := [⟨"user", "q"⟩], response_format := ResponseFormat.json }
        bigText ⟨[], none⟩ = ⟨"", bigText, 1, none, false⟩ := rfl
    rw [hso]
    exact stringifyMsg_big
  have hbig4 : CHARACTER_LIMIT < (stringifyMsgRespStructured
      (msgRespStructuredOutput0
        { messages := [⟨"user", "q"⟩], response_format := ResponseFormat.json }
        ⟨none, none, bigText⟩)).length := by
    have hso : msgRespStructuredOutput0
        { messages := [⟨"user", "q"⟩], response_format := ResponseFormat.json }
        ⟨none, none, bigText⟩ = ⟨"", bigText, 1, none, false⟩ := rfl
    rw [hso]
    exact stringifyMsgResp_big
  refine ⟨⟨?_, ?_, hbig, ?_⟩, ⟨?_, ?_, hbig2, ?_⟩, ⟨?_, ?_, hbig3, ?_⟩, ?_, ?_, hbig4, ?_⟩
  · exact (claim3_truncate_final_text _ { messages := [] } "m" _ { input := "x" }
      { messages := [] } ⟨none, none, "m"⟩).1 rfl
  · exact (claim3_truncate_final_text _ { messages := [] } "m" _ { input := "x" }
      { messages := [] } ⟨none, none, "m"⟩).2.1 rfl
  · exact (claim3_truncate_final_text _ { messages := [] } bigText _ { input := "x" }
      { messages := [] } ⟨none, none, "m"⟩).2.2.1 rfl hbig
  · exact (claim3_truncate_final_text { input := "x" } { messages := [] } "m" ⟨[], none⟩ _
      { messages := [] } _).2.2.2.1 rfl
  · exact (claim3_truncate_final_text { input := "x" } { messages := [] } "m" ⟨[], none⟩ _
      { messages := [] } _).2.2.2.2.1 rfl
  · exact (claim3_truncate_final_text { input := "x" } { messages := [] } "m" ⟨[], none⟩ _
      { messages := [] } _).2.2.2.2.2.1 rfl hbig2
  · exact (claim3_truncate_final_text { input := "x" } _ "m" _ { input := "x" }
      { messages := [] } ⟨none, none, "m"⟩).2.2.2.2.2.2.1 rfl
  · exact (claim3_truncate_final_text { input := "x" } _ "m" _ { input := "x" }
      { messages := [] } ⟨none, none, "m"⟩).2.2.2.2.2.2.2.1 rfl
  · exact (claim3_truncate_final_text { input := "x" } _ bigText _ { input := "x" }
      { messages := [] } ⟨none, none, "m"⟩).2.2.2.2.2.2.2.2.1 rfl hbig3
  · exact (claim3_truncate_final_text { input := "x" } { messages := [] } "m" ⟨[], none⟩
      { input := "x" } _ _).2.2.2.2.2.2.2.2.2.1 rfl
  · exact (claim3_truncate_final_text { input := "x" } { messages := [] } "m" ⟨[], none⟩
      { input := "x" } _ _).2.2.2.2.2.2.2.2.2.2.1 rfl
  · exact (claim3_truncate_final_text { input := "x" } { messages := [] } "m" ⟨[], none⟩
      { input := "x" } _ _).2.2.2.2.2.2.2.2.2.2.2 rfl hbig4

/-- Claim C10 (implicit): in all four generation handlers (generate and
converse, of v1.1.0 and of v2.0.0), with `response_format = json` and a
serialization exceeding the limit, the JSON text handed to the caller is the
truncation of the serialization of the structured output whose `truncated`
field is still `false` — the serialization ends in a literal
`"truncated": false` entry — while the separately returned
`structuredContent` carries `truncated = true`, because the flag is
overwritten on that object only after serialization. -/
theorem claim10_serialize_before_flag (p : ParamsV11) (m1 : MessagesParamsV11) (am : String)
    (r : ChatResponse) (q : ParamsV2) (m2 : MessagesParamsV2) (s : ResponsesResponse) :
    (p.response_format = ResponseFormat.json →
      CHARACTER_LIMIT < (stringifyChatStructured (chatStructuredOutput0 p am r)).length →
      (chatStructuredOutput0 p am r).truncated = false ∧
      (∃ pre, stringifyChatStructured (chatStructuredOutput0 p am r)
        = pre ++ truncatedEntry false) ∧
      truncatedEntry false = ",\n  \"truncated\": false\n\x7d" ∧
      (gptGenerateV11 p am (Except.ok r)).contentText
        = (truncateResponseV11 (stringifyChatStructured (chatStructuredOutput0 p am r))).text ∧
      (gptGenerateV11 p am (Except.ok r)).structuredContent
        = some { chatStructuredOutput0 p am r with truncated := true }) ∧
    (q.response_format = ResponseFormat.json →
      CHARACTER_LIMIT < (stringifyRespStructured (respStructuredOutput0 s)).length →
      (respStructuredOutput0 s).truncated = false ∧
      (∃ pre, stringifyRespStructured (respStructuredOutput0 s)
        = pre ++ truncatedEntry false) ∧
      (gptGenerateV2 q (Except.ok s)).contentText
        = (truncateResponseV2 (stringifyRespStructured (respStructuredOutput0 s))).text ∧
      (gptGenerateV2 q (Except.ok s)).structuredContent
        = some { respStructuredOutput0 s with truncated := true }) ∧
    (m1.response_format = ResponseFormat.json →
      CHARACTER_LIMIT < (stringifyMsgStructured (msgStructuredOutput0 m1 am r)).length →
      (msgStructuredOutput0 m1 am r).truncated = false ∧
      (∃ pre, stringifyMsgStructured (msgStructuredOutput0 m1 am r)
        = pre ++ truncatedEntry false) ∧
      (gptMessagesV11 m1 am (Except.ok r)).contentText
        = (truncateResponseV11 (stringifyMsgStructured (msgStructuredOutput0 m1 am r))).text ∧
      (gptMessagesV11 m1 am (Except.ok r)).structuredContent
        = some { msgStructuredOutput0 m1 am r with truncated := true }) ∧
    (m2.response_format = ResponseFormat.json →
      CHARACTER_LIMIT < (stringifyMsgRespStructured (msgRespStructuredOutput0 m2 s)).length →
      (msgRespStructuredOutput0 m2 s).truncated = false ∧
      (∃ pre, stringifyMsgRespStructured (msgRespStructuredOutput0 m2 s)
        = pre ++ truncatedEntry false) ∧
      (gptMessagesV2 m2 (Except.ok s)).contentText
        = (truncateResponseV2 (stringifyMsgRespStructured (msgRespStructuredOutput0 m2 s))).text ∧
      (gptMessagesV2 m2 (Except.ok s)).structuredContent
        = some { msgRespStructuredOutput0 m2 s with truncated := true }) := by
  refine ⟨?_, ?_, ?_, ?_⟩
  · intro h hlen
    refine ⟨rfl, ⟨"\x7b\n  \"text\": " ++ jsonString (chatStructuredOutput0 p am r).text
        ++ ",\n  \"model\": " ++ jsonString (chatStructuredOutput0 p am r).model
        ++ chatUsageEntry (chatStructuredOutput0 p am r).usage, ?_⟩, by decide, ?_, ?_⟩
    · simp [stringifyChatStructured, chatStructuredOutput0]
    · simp [gptGenerateV11, h]
    · simp [gptGenerateV11, h, truncateResponseV11_of_gt hlen]
  · intro h hlen
    refine ⟨rfl, ⟨"\x7b\n  \"text\": " ++ jsonString (respStructuredOutput0 s).text
        ++ ",\n  \"model\": " ++ jsonString (respStructuredOutput0 s).model
        ++ respUsageEntry (respStructuredOutput0 s).usage, ?_⟩, ?_, ?_⟩
    · simp [stringifyRespStructured, respStructuredOutput0]
    · simp [gptGenerateV2, h]
    · simp [gptGenerateV2, h, truncateResponseV2_of_gt hlen]
  · intro h hlen
    refine ⟨rfl, ⟨"\x7b\n  \"text\": " ++ jsonString (msgStructuredOutput0 m1 am r).text
        ++ ",\n  \"model\": " ++ jsonString (msgStructuredOutput0 m1 am r).model
        ++ ",\n  \"message_count\": " ++ toString (msgStructuredOutput0 m1 am r).message_count
        ++ chatUsageEntry (msgStructuredOutput0 m1 am r).usage, ?_⟩, ?_, ?_⟩
    · simp [stringifyMsgStructured, msgStructuredOutput0]
    · simp [gptMessagesV11, h]
    · simp [gptMessagesV11, h, truncateResponseV11_of_gt hlen]
  · intro h hlen
    refine ⟨rfl, ⟨"\x7b\n  \"text\": " ++ jsonString (msgRespStructuredOutput0 m2 s).text
        ++ ",\n  \"model\": " ++ jsonString (msgRespStructuredOutput0 m2 s).model
        ++ ",\n  \"message_count\": " ++ toString (msgRespStructuredOutput0 m2 s).message_count
        ++ respUsageEntry (msgRespStructuredOutput0 m2 s).usage, ?_⟩, ?_, ?_⟩
    · simp [stringifyMsgRespStructured, msgRespStructuredOutput0]
    · simp [gptMessagesV2, h]
    · simp [gptMessagesV2, h, truncateResponseV2_of_gt hlen]

/-- Witness for C10: all four handlers at concrete over-limit json calls. -/
theorem claim10_serialize_before_flag_w :
    (CHARACTER_LIMIT < (stringifyChatStructured
        (chatStructuredOutput0 { input := "hi", response_format := ResponseFormat.json }
          bigText ⟨[], none⟩)).length ∧
      (gptGenerateV11 { input := "hi", response_format := ResponseFormat.json } bigText
          (Except.ok ⟨[], none⟩)).structuredContent
        = some { chatStructuredOutput0 { input := "hi", response_format := ResponseFormat.json }
            bigText ⟨[], none⟩ with truncated := true }) ∧
    (CHARACTER_LIMIT < (stringifyRespStructured (respStructuredOutput0 ⟨none, none, bigText⟩)).length ∧
      (gptGenerateV2 { input := "hi", response_format := ResponseFormat.json }
          (Except.ok ⟨none, none, bigText⟩)).structuredContent
        = some { respStructuredOutput0 ⟨none, none, bigText⟩ with truncated := true }) ∧
    (CHARACTER_LIMIT < (stringifyMsgStructured
        (msgStructuredOutput0 { messages := [⟨"user", "q"⟩], response_format := ResponseFormat.json }
          bigText ⟨[], none⟩)).length ∧
      (gptMessagesV11 { messages := [⟨"user", "q"⟩], response_format := ResponseFormat.json } bigText
          (Except.ok ⟨[], none⟩)).structuredContent
        = some { msgStructuredOutput0
            { messages := [⟨"user", "q"⟩], response_format := ResponseFormat.json }
            bigText ⟨[], none⟩ with truncated := true }) ∧
    (CHARACTER_LIMIT < (stringifyMsgRespStructured
        (msgRespStructuredOutput0
          { messages := [⟨"user", "q"⟩], response_format := ResponseFormat.json }
          ⟨none, none, bigText⟩)).length ∧
      (gptMessagesV2 { messages := [⟨"user", "q"⟩], response_format := ResponseFormat.json }
          (Except.ok ⟨none, none, bigText⟩)).structuredContent
        = some { msgRespStructuredOutput0
            { messages := [⟨"user", "q"⟩], response_format := ResponseFormat.json }
            ⟨none, none, bigText⟩ with truncated := true }) := by
  have hbig : CHARACTER_LIMIT < (stringifyChatStructured
      (chatStructuredOutput0 { input := "hi", response_format := ResponseFormat.json }
        bigText ⟨[], none⟩)).length := by
    have hso : chatStructuredOutput0 { input := "hi", response_format := ResponseFormat.json }
        bigText ⟨[], none⟩ = ⟨"", bigText, none, false⟩ := rfl
    rw [hso]
    exact stringifyChat_big
  have hbig2 : CHARACTER_LIMIT
      < (stringifyRespStructured (respStructuredOutput0 ⟨none, none, bigText⟩)).length := by
    have hso : respStructuredOutput0 ⟨none, none, bigText⟩ = ⟨"", bigText, none, false⟩ := rfl
    rw [hso]
    exact stringifyResp_big
  have hbig3 : CHARACTER_LIMIT < (stringifyMsgStructured
      (msgStructuredOutput0 { messages := [⟨"user", "q"⟩], response_format := ResponseFormat.json }
        bigText ⟨[], none⟩)).length := by
    have hso : msgStructuredOutput0
        { messages := [⟨"user", "q"⟩], response_format := ResponseFormat.json }
        bigText ⟨[], none⟩ = ⟨"", bigText, 1, none, false⟩ := rfl
    rw [hso]
    exact stringifyMsg_big
  have hbig4 : CHARACTER_LIMIT < (stringifyMsgRespStructured
      (msgRespStructuredOutput0
        { messages := [⟨"user", "q"⟩], response_format := ResponseFormat.json }
        ⟨none, none, bigText⟩)).length := by
    have hso : msgRespStructuredOutput0
        { messages := [⟨"user", "q"⟩], response_format := ResponseFormat.json }
        ⟨none, none, bigText⟩ = ⟨"", bigText, 1, none, false⟩ := rfl
    rw [hso]
    exact stringifyMsgResp_big
  refine ⟨⟨hbig, ?_⟩, ⟨hbig2, ?_⟩, ⟨hbig3, ?_⟩, hbig4, ?_⟩
  · exact ((claim10_serialize_before_flag _ { messages := [] } bigText _ { input := "x" }
      { messages := [] } ⟨none, none, "m"⟩).1 rfl hbig).2.2.2.2
  · exact ((claim10_serialize_before_flag { input := "x" } { messages := [] } "m" ⟨[], none⟩ _
      { messages := [] } _).2.1 rfl hbig2).2.2.2
  · exact ((claim10_serialize_before_flag { input := "x" } _ bigText _ { input := "x" }
      { messages := [] } ⟨none, none, "m"⟩).2.2.1 rfl hbig3).2.2.2
  · exact ((claim10_serialize_before_flag { input := "x" } { messages := [] } "m" ⟨[], none⟩
      { input := "x" } _ _).2.2.2 rfl hbig4).2.2.2

/-- The spec's unified usage shape `\x7binputUnits, outputUnits, totalUnits\x7d`
(section 3, NormalizedResult). -/
structure UnifiedUsage where
  inputUnits : Nat
  outputUnits : Nat
  totalUnits : Nat
deriving DecidableEq

/-- Spec-side reading of Chat Completions usage (convention A,
prompt/completion counters) into the unified shape. -/
def specUnifiedOfChat (u : ChatUsage) : UnifiedUsage :=
  ⟨u.prompt_tokens, u.completion_tokens, u.total_tokens⟩

/-- Spec-side reading of Responses API usage (convention B, input/output
counters) into the unified shape. -/
def specUnifiedOfResp (u : RespUsage) : UnifiedUsage :=
  ⟨u.input_tokens, u.output_tokens, u.total_tokens⟩

/-- Claim C1: a Chat Completions response with usage keyed
prompt/completion and a Responses-API response with usage keyed input/output,
carrying equal counter values, normalize to structured outputs whose usage
reads as the identical unified value; and when upstream usage is absent, the
normalized usage field is omitted (`none`), not present with zeros. -/
theorem claim1_usage_unified (p : ParamsV11) (am : String) (q : ParamsV2)
    (r : ChatResponse) (s : ResponsesResponse) (i o t : Nat) :
    (r.usage = some ⟨i, o, t⟩ → s.usage = some ⟨i, o, t⟩ →
      ((gptGenerateV11 p am (Except.ok r)).structuredContent.bind
          (fun x => x.usage)).map specUnifiedOfChat = some ⟨i, o, t⟩ ∧
      ((gptGenerateV2 q (Except.ok s)).structuredContent.bind
          (fun x => x.usage)).map specUnifiedOfResp = some ⟨i, o, t⟩) ∧
    (r.usage = none →
      (gptGenerateV11 p am (Except.ok r)).structuredContent.bind (fun x => x.usage) = none) ∧
    (s.usage = none →
      (gptGenerateV2 q (Except.ok s)).structuredContent.bind (fun x => x.usage) = none) := by
  refine ⟨fun h1 h2 => ⟨?_, ?_⟩, fun h1 => ?_, fun h2 => ?_⟩
  · cases hf : p.response_format <;>
      simp [gptGenerateV11, chatStructuredOutput0, h1, hf, specUnifiedOfChat]
  · cases hg : q.response_format <;>
      simp [gptGenerateV2, respStructuredOutput0, h2, hg, specUnifiedOfResp]
  · cases hf : p.response_format <;>
      simp [gptGenerateV11, chatStructuredOutput0, h1, hf]
  · cases hg : q.response_format <;>
      simp [gptGenerateV2, respStructuredOutput0, h2, hg]

/-- Witness for C1: concrete equal counters 5/2/7 and concrete absent usage. -/
theorem claim1_usage_unified_w :
    (((gptGenerateV11 { input := "hi" } "m"
        (Except.ok ⟨[⟨some ⟨some "Hello!"⟩⟩], some ⟨5, 2, 7⟩⟩)).structuredContent.bind
          (fun x => x.usage)).map specUnifiedOfChat = some ⟨5, 2, 7⟩ ∧
      ((gptGenerateV2 { input := "hi" }
        (Except.ok ⟨none, some ⟨5, 2, 7⟩, "m"⟩)).structuredContent.bind
          (fun x => x.usage)).map specUnifiedOfResp = some ⟨5, 2, 7⟩) ∧
    ((gptGenerateV11 { input := "hi" } "m"
        (Except.ok ⟨[], none⟩)).structuredContent.bind (fun x => x.usage) = none) := by
  refine ⟨(claim1_usage_unified { input := "hi" } "m" { input := "hi" }
    ⟨[⟨some ⟨some "Hello!"⟩⟩], some ⟨5, 2, 7⟩⟩ ⟨none, some ⟨5, 2, 7⟩, "m"⟩ 5 2 7).1 rfl rfl, ?_⟩
  exact (claim1_usage_unified { input := "hi" } "m" { input := "hi" }
    ⟨[], none⟩ ⟨none, none, "m"⟩ 5 2 7).2.1 rfl

theorem hasKey_literalField {α : Type} (o : Option α) :
    JsField.hasKey (literalField o) = true := by
  cases o <;> rfl

/-- Counterexample for C4: in the v1.0.0 `gpt_generate` handler the object
literal passed to `create` always carries a `temperature` key, so a call that
does not supply `temperature` still produces a request object with that key
(holding `undefined`), contradicting the claim that the built request
contains no key for an omitted parameter on every generate/converse call. -/
theorem claim4_cex :
    ({ input := "hi" } : ParamsV10).temperature = none ∧
    JsField.hasKey (buildChatRequestV10 { input := "hi" } "m").temperature = true ∧
    (buildChatRequestV10 { input := "hi" } "m").temperature = JsField.undef := by
  exact ⟨rfl, rfl, rfl⟩

/-- Claim C4 (amended): in the v1.1.0 and v2.0.0 generate/converse handlers,
an unsupplied `temperature` (resp. `max_tokens`/`max_output_tokens`, `top_p`)
leaves the built upstream request without that key at all, while a supplied
value — including 0 — is copied through under its key; in both v1.0.0
handlers (generate and converse) the keys are always present, holding
`undefined` exactly when the caller omitted the parameter. -/
theorem claim4_optional_params (p1 : ParamsV11) (m1 : MessagesParamsV11)
    (p2 : ParamsV2) (m2 : MessagesParamsV2) (p0 : ParamsV10) (m0 : MessagesParamsV10)
    (am : String) :
    ((p1.temperature = none → JsField.hasKey (buildChatRequestV11 p1 am).temperature = false) ∧
     (∀ v, p1.temperature = some v → (buildChatRequestV11 p1 am).temperature = JsField.val v) ∧
     (p1.top_p = none → JsField.hasKey (buildChatRequestV11 p1 am).top_p = false) ∧
     (∀ v, p1.top_p = some v → (buildChatRequestV11 p1 am).top_p = JsField.val v) ∧
     (p1.max_tokens = none → JsField.hasKey (buildChatRequestV11 p1 am).max_tokens = false) ∧
     (∀ v, p1.max_tokens = some v → (buildChatRequestV11 p1 am).max_tokens = JsField.val v)) ∧
    ((m1.temperature = none →
        JsField.hasKey (buildChatMessagesRequestV11 m1 am).temperature = false) ∧
     (∀ v, m1.temperature = some v →
        (buildChatMessagesRequestV11 m1 am).temperature = JsField.val v) ∧
     (m1.top_p = none → JsField.hasKey (buildChatMessagesRequestV11 m1 am).top_p = false) ∧
     (∀ v, m1.top_p = some v → (buildChatMessagesRequestV11 m1 am).top_p = JsField.val v) ∧
     (m1.max_tokens = none →
        JsField.hasKey (buildChatMessagesRequestV11 m1 am).max_tokens = false) ∧
     (∀ v, m1.max_tokens = some v →
        (buildChatMessagesRequestV11 m1 am).max_tokens = JsField.val v)) ∧
    ((p2.temperature = none → JsField.hasKey (buildResponsesRequestV2 p2 am).temperature = false) ∧
     (∀ v, p2.temperature = some v → (buildResponsesRequestV2 p2 am).temperature = JsField.val v) ∧
     (p2.top_p = none → JsField.hasKey (buildResponsesRequestV2 p2 am).top_p = false) ∧
     (∀ v, p2.top_p = some v → (buildResponsesRequestV2 p2 am).top_p = JsField.val v) ∧
     (p2.max_output_tokens = none →
        JsField.hasKey (buildResponsesRequestV2 p2 am).max_output_tokens = false) ∧
     (∀ v, p2.max_output_tokens = some v →
        (buildResponsesRequestV2 p2 am).max_output_tokens = JsField.val v)) ∧
    ((m2.temperature = none →
        JsField.hasKey (buildResponsesMessagesRequestV2 m2 am).temperature = false) ∧
     (∀ v, m2.temperature = some v →
        (buildResponsesMessagesRequestV2 m2 am).temperature = JsField.val v) ∧
     (m2.top_p = none → JsField.hasKey (buildResponsesMessagesRequestV2 m2 am).top_p = false) ∧
     (∀ v, m2.top_p = some v →
        (buildResponsesMessagesRequestV2 m2 am).top_p = JsField.val v) ∧
     (m2.max_output_tokens = none →
        JsField.hasKey (buildResponsesMessagesRequestV2 m2 am).max_output_tokens = false) ∧
     (∀ v, m2.max_output_tokens = some v →
        (buildResponsesMessagesRequestV2 m2 am).max_output_tokens = JsField.val v)) ∧
    ((p0.temperature = none → (buildChatRequestV10 p0 am).temperature = JsField.undef) ∧
     (∀ v, p0.temperature = some v → (buildChatRequestV10 p0 am).temperature = JsField.val v) ∧
     (p0.top_p = none → (buildChatRequestV10 p0 am).top_p = JsField.undef) ∧
     (∀ v, p0.top_p = some v → (buildChatRequestV10 p0 am).top_p = JsField.val v) ∧
     (p0.max_tokens = none → (buildChatRequestV10 p0 am).max_tokens = JsField.undef) ∧
     (∀ v, p0.max_tokens = some v → (buildChatRequestV10 p0 am).max_tokens = JsField.val v) ∧
     JsField.hasKey (buildChatRequestV10 p0 am).temperature = true ∧
     JsField.hasKey (buildChatRequestV10 p0 am).top_p = true ∧
     JsField.hasKey (buildChatRequestV10 p0 am).max_tokens = true) ∧
    ((m0.temperature = none → (buildChatMessagesRequestV10 m0 am).temperature = JsField.undef) ∧
     (∀ v, m0.temperature = some v →
        (buildChatMessagesRequestV10 m0 am).temperature = JsField.val v) ∧
     (m0.top_p = none → (buildChatMessagesRequestV10 m0 am).top_p = JsField.undef) ∧
     (∀ v, m0.top_p = some v → (buildChatMessagesRequestV10 m0 am).top_p = JsField.val v) ∧
     (m0.max_tokens = none → (buildChatMessagesRequestV10 m0 am).max_tokens = JsField.undef) ∧
     (∀ v, m0.max_tokens = some v →
        (buildChatMessagesRequestV10 m0 am).max_tokens = JsField.val v) ∧
     JsField.hasKey (buildChatMessagesRequestV10 m0 am).temperature = true ∧
     JsField.hasKey (buildChatMessagesRequestV10 m0 am).top_p = true ∧
     JsField.hasKey (buildChatMessagesRequestV10 m0 am).max_tokens = true) := by
  refine ⟨⟨fun h => ?_, fun v h => ?_, fun h => ?_, fun v h => ?_, fun h => ?_, fun v h => ?_⟩,
    ⟨fun h => ?_, fun v h => ?_, fun h => ?_, fun v h => ?_, fun h => ?_, fun v h => ?_⟩,
    ⟨fun h => ?_, fun v h => ?_, fun h => ?_, fun v h => ?_, fun h => ?_, fun v h => ?_⟩,
    ⟨fun h => ?_, fun v h => ?_, fun h => ?_, fun v h => ?_, fun h => ?_, fun v h => ?_⟩,
    ⟨fun h => ?_, fun v h => ?_, fun h => ?_, fun v h => ?_, fun h => ?_, fun v h => ?_, ?_, ?_, ?_⟩,
    ⟨fun h => ?_, fun v h => ?_, fun h => ?_, fun v h => ?_, fun h => ?_, fun v h => ?_, ?_, ?_, ?_⟩⟩ <;>
  first
  | simp [buildChatRequestV11, buildChatMessagesRequestV11, buildResponsesRequestV2,
      buildResponsesMessagesRequestV2, buildChatRequestV10, buildChatMessagesRequestV10,
      optField, literalField, JsField.hasKey, h]
  | exact hasKey_literalField p0.temperature
  | exact hasKey_literalField p0.top_p
  | exact hasKey_literalField p0.max_tokens
  | exact hasKey_literalField m0.temperature
  | exact hasKey_literalField m0.top_p
  | exact hasKey_literalField m0.max_tokens

/-- Witness for C4: omitted `temperature` yields no key in v1.1.0 but an
`undefined`-valued key in both v1.0.0 handlers, and a supplied `temperature`
of 0 is copied through. -/
theorem claim4_optional_params_w :
    JsField.hasKey (buildChatRequestV11 { input := "hi" } "m").temperature = false ∧
    (buildChatRequestV11 { input := "hi", temperature := some 0 } "m").temperature
      = JsField.val 0 ∧
    (buildChatRequestV10 { input := "hi" } "m").temperature = JsField.undef ∧
    (buildChatMessagesRequestV10 { messages := [⟨"user", "q"⟩] } "m").temperature
      = JsField.undef := by
  refine ⟨?_, ?_, ?_, ?_⟩
  · exact (claim4_optional_params { input := "hi" } { messages := [] } { input := "hi" }
      { messages := [] } { input := "hi" } { messages := [] } "m").1.1 rfl
  · exact (claim4_optional_params { input := "hi", temperature := some 0 } { messages := [] }
      { input := "hi" } { messages := [] } { input := "hi" } { messages := [] } "m").1.2.1 0 rfl
  · exact (claim4_optional_params { input := "hi" } { messages := [] } { input := "hi" }
      { messages := [] } { input := "hi" } { messages := [] } "m").2.2.2.2.1.1 rfl
  · exact (claim4_optional_params { input := "hi" } { messages := [] } { input := "hi" }
      { messages := [] } { input := "hi" } { messages := [⟨"user", "q"⟩] } "m").2.2.2.2.2.1 rfl

/-- Counterexample for C5: in the v1.1.0 `gpt_generate` handler the
`reasoning_effort` field is assigned unconditionally, so a call whose
effective reasoning effort is "none" still produces a request whose
reasoning-configuration field is present with the literal value "none",
contradicting the claim that every such call suppresses the field. -/
theorem claim5_cex :
    effectiveEffortV11 ({ input := "hi", reasoning_effort := some "none" } : ParamsV11).reasoning_effort
      = "none" ∧
    JsField.hasKey (buildChatRequestV11 { input := "hi", reasoning_effort := some "none" }
      "m").reasoning_effort = true ∧
    (buildChatRequestV11 { input := "hi", reasoning_effort := some "none" } "m").reasoning_effort
      = JsField.val "none" := by
  exact ⟨rfl, rfl, rfl⟩

/-- Claim C5 (amended): in the v2.0.0 generate/converse handlers an effective
reasoning effort of "none" suppresses the `reasoning` field entirely and any
other effective value sets `reasoning.effort` to that value; in the v1.1.0
handlers the `reasoning_effort` field is always present with the effective
value, including the literal "none". -/
theorem claim5_reasoning_suppression (p1 : ParamsV11) (m1 : MessagesParamsV11)
    (p2 : ParamsV2) (m2 : MessagesParamsV2) (am : String) :
    ((effectiveEffortV2 p2.reasoning_effort = "none" →
        JsField.hasKey (buildResponsesRequestV2 p2 am).reasoning = false) ∧
     (effectiveEffortV2 p2.reasoning_effort ≠ "none" →
        (buildResponsesRequestV2 p2 am).reasoning
          = JsField.val (effectiveEffortV2 p2.reasoning_effort))) ∧
    ((effectiveEffortV2 m2.reasoning_effort = "none" →
        JsField.hasKey (buildResponsesMessagesRequestV2 m2 am).reasoning = false) ∧
     (effectiveEffortV2 m2.reasoning_effort ≠ "none" →
        (buildResponsesMessagesRequestV2 m2 am).reasoning
          = JsField.val (effectiveEffortV2 m2.reasoning_effort))) ∧
    ((buildChatRequestV11 p1 am).reasoning_effort
        = JsField.val (effectiveEffortV11 p1.reasoning_effort) ∧
     (buildChatMessagesRequestV11 m1 am).reasoning_effort
        = JsField.val (effectiveEffortV11 m1.reasoning_effort)) := by
  refine ⟨⟨fun h => ?_, fun h => ?_⟩, ⟨fun h => ?_, fun h => ?_⟩, rfl, rfl⟩ <;>
    simp [buildResponsesRequestV2, buildResponsesMessagesRequestV2, reasoningField,
      JsField.hasKey, h]

/-- Witness for C5: a v2.0.0 call supplying "none" has no reasoning field, a
v2.0.0 call relying on the "low" default keeps it, and a v1.1.0 call
supplying "none" sends it literally. -/
theorem claim5_reasoning_suppression_w :
    JsField.hasKey (buildResponsesRequestV2 { input := "hi", reasoning_effort := some "none" }
      "m").reasoning = false ∧
    (buildResponsesRequestV2 { input := "hi" } "m").reasoning = JsField.val "low" ∧
    (buildChatRequestV11 { input := "hi", reasoning_effort := some "none" } "m").reasoning_effort
      = JsField.val "none" := by
  refine ⟨?_, ?_, ?_⟩
  · exact (claim5_reasoning_suppression { input := "hi" } { messages := [] }
      { input := "hi", reasoning_effort := some "none" } { messages := [] } "m").1.1 rfl
  · exact (claim5_reasoning_suppression { input := "hi" } { messages := [] }
      { input := "hi" } { messages := [] } "m").1.2 (by decide)
  · exact (claim5_reasoning_suppression { input := "hi", reasoning_effort := some "none" }
      { messages := [] } { input := "hi" } { messages := [] } "m").2.2.1

/-- Modelled from the spec: text extraction as the claim words it — keep only
parts tagged output-text, concatenate the texts within one item with no
separator, join the results of distinct items with a blank line, empty string
for absent output. Used only to exhibit the divergence from the code. -/
def specExtractClaim6 (r : ResponsesResponse) : String :=
  match r.output with
  | none => ""
  | some items =>
    String.intercalate "\n\n" (items.map (fun item =>
      String.join (((item.content.getD []).filter
        (fun c => c.type = "output_text")).map (fun c => c.text))))

/-- Counterexample for C6: one output item holding two output-text parts "a"
and "b". The code joins the two parts of this single item with a blank line
("a\n\nb"), while the claim prescribes concatenation with no separator within
one item ("ab"). -/
theorem claim6_cex :
    extractResponseText
        ⟨some [⟨"message", some [⟨"output_text", "a"⟩, ⟨"output_text", "b"⟩]⟩], none, "m"⟩
      = "a\n\nb" ∧
    specExtractClaim6
        ⟨some [⟨"message", some [⟨"output_text", "a"⟩, ⟨"output_text", "b"⟩]⟩], none, "m"⟩
      = "ab" ∧
    extractResponseText
        ⟨some [⟨"message", some [⟨"output_text", "a"⟩, ⟨"output_text", "b"⟩]⟩], none, "m"⟩
      ≠ specExtractClaim6
        ⟨some [⟨"message", some [⟨"output_text", "a"⟩, ⟨"output_text", "b"⟩]⟩], none, "m"⟩ := by
  exact ⟨by decide, by decide, by decide⟩

/-- The flat list of kept part texts: every non-empty output-text part of
every message-typed item, in order. -/
def keptTexts (items : List OutputItem) : List String :=
  items.foldr (fun item acc =>
    (if item.type = "message" then
      ((item.content.getD []).filter (fun c => c.type = "output_text" ∧ c.text ≠ "")).map
        (fun c => c.text)
    else []) ++ acc) []

theorem collectOutputTexts_eq_keptTexts (items : List OutputItem) :
    collectOutputTexts items = keptTexts items := by
  induction items with
  | nil => rfl
  | cons i rest ih =>
    cases hc : i.content <;> simp [collectOutputTexts, keptTexts, hc, ih]

/-- Claim C6 (amended): text extraction collects the texts of all non-empty
output-text parts of all message-typed output items into one flat sequence
and joins that sequence with blank lines — so two parts within the same item
are also blank-line separated, not concatenated directly, and empty-text
parts are skipped; absent or empty output yields the empty string. -/
theorem claim6_extract_flat_join (r : ResponsesResponse) :
    (r.output = none → extractResponseText r = "") ∧
    (r.output = some [] → extractResponseText r = "") ∧
    (∀ items, r.output = some items →
      extractResponseText r = String.intercalate "\n\n" (keptTexts items)) := by
  refine ⟨fun h => ?_, fun h => ?_, fun items h => ?_⟩
  · simp [extractResponseText, h]
  · simp [extractResponseText, h]
  · cases items with
    | nil => simp [extractResponseText, h, keptTexts, String.intercalate]
    | cons i rest =>
      simp [extractResponseText, h, collectOutputTexts_eq_keptTexts]

/-- Witness for C6 (amended): absent output, empty output, and a concrete
two-item payload. -/
theorem claim6_extract_flat_join_w :
    extractResponseText ⟨none, none, "m"⟩ = "" ∧
    extractResponseText ⟨some [], none, "m"⟩ = "" ∧
    extractResponseText
        ⟨some [⟨"message", some [⟨"output_text", "a"⟩]⟩,
          ⟨"message", some [⟨"output_text", "b"⟩]⟩], none, "m"⟩
      = String.intercalate "\n\n"
          (keptTexts [⟨"message", some [⟨"output_text", "a"⟩]⟩,
            ⟨"message", some [⟨"output_text", "b"⟩]⟩]) := by
  refine ⟨(claim6_extract_flat_join ⟨none, none, "m"⟩).1 rfl,
    (claim6_extract_flat_join ⟨some [], none, "m"⟩).2.1 rfl,
    (claim6_extract_flat_join _).2.2 _ rfl⟩

/-- Claim C7: startup model resolution — with no (or empty) configured
override the state is `(fallback, false)` and is independent of the listing
call's outcome (the listing is never consulted); with a truthy override
present in the listed set the state is `(configured, false)`; with a truthy
override absent from the listed set it is `(fallback, true)`; and when the
listing call itself fails it is `(configured, false)`. -/
theorem claim7_model_resolution (configured : Option String) (fb : String)
    (listing : Except String (List String)) :
    (isTruthy configured = false →
      validateConfiguredModel configured fb listing = ⟨fb, false⟩ ∧
      ∀ listing2, validateConfiguredModel configured fb listing2
        = validateConfiguredModel configured fb listing) ∧
    (∀ c ids, configured = some c → c ≠ "" → listing = Except.ok ids →
      (c ∈ ids → validateConfiguredModel configured fb listing = ⟨c, false⟩) ∧
      (c ∉ ids → validateConfiguredModel configured fb listing = ⟨fb, true⟩)) ∧
    (∀ c err, configured = some c → c ≠ "" → listing = Except.error err →
      validateConfiguredModel configured fb listing = ⟨c, false⟩) := by
  refine ⟨fun h => ⟨?_, fun listing2 => ?_⟩,
    fun c ids hc hne hl => ⟨fun hmem => ?_, fun hmem => ?_⟩,
    fun c err hc hne hl => ?_⟩
  · cases configured with
    | none => simp [validateConfiguredModel, initialActiveModel]
    | some s =>
      have hs : s = "" := by
        by_contra hne
        simp [isTruthy, hne] at h
      subst hs
      simp [validateConfiguredModel, initialActiveModel]
  · cases configured with
    | none => rfl
    | some s =>
      have hs : s = "" := by
        by_contra hne
        simp [isTruthy, hne] at h
      subst hs
      simp [validateConfiguredModel]
  · subst hc hl
    simp [validateConfiguredModel, initialActiveModel, hne, hmem]
  · subst hc hl
    simp [validateConfiguredModel, initialActiveModel, hne, hmem]
  · subst hc hl
    simp [validateConfiguredModel, initialActiveModel, hne]

/-- Witness for C7: all four cases at concrete inputs. -/
theorem claim7_model_resolution_w :
    validateConfiguredModel none "fb" (Except.ok ["x"]) = ⟨"fb", false⟩ ∧
    validateConfiguredModel (some "x") "fb" (Except.ok ["x", "y"]) = ⟨"x", false⟩ ∧
    validateConfiguredModel (some "z") "fb" (Except.ok ["x", "y"]) = ⟨"fb", true⟩ ∧
    validateConfiguredModel (some "z") "fb" (Except.error "boom") = ⟨"z", false⟩ := by
  refine ⟨((claim7_model_resolution none "fb" (Except.ok ["x"])).1 rfl).1, ?_, ?_, ?_⟩
  · exact ((claim7_model_resolution (some "x") "fb" (Except.ok ["x", "y"])).2.1
      "x" ["x", "y"] rfl (by decide) rfl).1 (by decide)
  · exact ((claim7_model_resolution (some "z") "fb" (Except.ok ["x", "y"])).2.1
      "z" ["x", "y"] rfl (by decide) rfl).2 (by decide)
  · exact (claim7_model_resolution (some "z") "fb" (Except.error "boom")).2.2
      "z" "boom" rfl (by decide) rfl

/-- Claim C8: in every state reachable after startup, `fallbackUsed = true`
implies the active model is the fallback and the configured identifier was
truthy (non-empty) and absent from the successfully listed model set; and the
state is written only by the startup validation — running any sequence of
tool calls leaves it unchanged. -/
theorem claim8_state_invariant (configured : Option String) (fb : String)
    (listing : Except String (List String)) (calls : List ToolCall) :
    ((validateConfiguredModel configured fb listing).fallbackUsed = true →
      (validateConfiguredModel configured fb listing).activeModel = fb ∧
      ∃ c, configured = some c ∧ c ≠ "" ∧
        ∃ ids, listing = Except.ok ids ∧ c ∉ ids) ∧
    (runServer (validateConfiguredModel configured fb listing) calls).1
      = validateConfiguredModel configured fb listing := by
  refine ⟨fun h => ?_, runServer_fst _ calls⟩
  cases configured with
  | none => simp [validateConfiguredModel] at h
  | some c =>
    by_cases hc : c = ""
    · subst hc
      simp [validateConfiguredModel] at h
    · cases listing with
      | error e => simp [validateConfiguredModel, hc] at h
      | ok ids =>
        by_cases hmem : c ∈ ids
        · simp [validateConfiguredModel, hc, hmem] at h
        · exact ⟨by simp [validateConfiguredModel, hc, hmem],
            c, rfl, hc, ids, rfl, hmem⟩

/-- Witness for C8: a concrete startup with a configured model missing from
the listing, followed by a status call and a generate call. -/
theorem claim8_state_invariant_w :
    (validateConfiguredModel (some "z") "fb" (Except.ok ["x"])).fallbackUsed = true ∧
    (validateConfiguredModel (some "z") "fb" (Except.ok ["x"])).activeModel = "fb" ∧
    (runServer (validateConfiguredModel (some "z") "fb" (Except.ok ["x"]))
        [ToolCall.statusCall, ToolCall.genCall { input := "hi" } (Except.ok ⟨[], none⟩)]).1
      = validateConfiguredModel (some "z") "fb" (Except.ok ["x"]) := by
  have h : (validateConfiguredModel (some "z") "fb" (Except.ok ["x"])).fallbackUsed = true := by
    decide
  exact ⟨h, ((claim8_state_invariant (some "z") "fb" (Except.ok ["x"]) []).1 h).1,
    (claim8_state_invariant (some "z") "fb" (Except.ok ["x"])
      [ToolCall.statusCall, ToolCall.genCall { input := "hi" } (Except.ok ⟨[], none⟩)]).2⟩

/-- Claim C9: error classification is a total deterministic function of the
thrown value, checked in first-match order — statuses 401/402/403/404/429 to
their fixed messages; otherwise a message containing "timeout"
case-insensitively to the timed-out message; other API errors to the generic
status passthrough; other exceptions to "Error: message"; non-exception
values to the stringified fallback — and a tool call whose upstream request
throws returns a normal result with `isError = true` carrying the classified
message, status 401 yielding a message mentioning the invalid API key. -/
theorem claim9_error_classification :
    (∀ m, handleOpenAIError (ThrownValue.apiError (some 401) m)
      = "Error: Invalid API key. Please verify your OPENAI_API_KEY at platform.openai.com/api-keys") ∧
    (∀ m, handleOpenAIError (ThrownValue.apiError (some 429) m)
      = "Error: Rate limit exceeded. Please wait and try again, or check your API quota.") ∧
    (∀ m, handleOpenAIError (ThrownValue.apiError (some 402) m)
      = "Error: API quota exceeded. Please check your billing at platform.openai.com/usage") ∧
    (∀ m, handleOpenAIError (ThrownValue.apiError (some 404) m)
      = "Error: Model not found. Please check the model name is correct.") ∧
    (∀ m, handleOpenAIError (ThrownValue.apiError (some 403) m)
      = "Error: Permission denied. Your API key may not have access to this model.") ∧
    (∀ st m, st ≠ some 401 → st ≠ some 429 → st ≠ some 402 → st ≠ some 404 → st ≠ some 403 →
      containsTimeout m = true →
      handleOpenAIError (ThrownValue.apiError st m)
        = "Error: Request timed out. Please try again with a shorter prompt.") ∧
    (∀ st m, st ≠ some 401 → st ≠ some 429 → st ≠ some 402 → st ≠ some 404 → st ≠ some 403 →
      containsTimeout m = false →
      handleOpenAIError (ThrownValue.apiError st m)
        = "Error: OpenAI API error (" ++ statusText st ++ "): " ++ m) ∧
    (∀ m, handleOpenAIError (ThrownValue.jsError m) = "Error: " ++ m) ∧
    (∀ v, handleOpenAIError (ThrownValue.other v)
      = "Error: Unexpected error occurred: " ++ v) ∧
    (∀ p am e, gptGenerateV11 p am (Except.error e)
      = ⟨handleOpenAIError e, true, none⟩) ∧
    (∀ q e, gptGenerateV2 q (Except.error e) = ⟨handleOpenAIError e, true, none⟩) ∧
    (∀ m, ∃ a b, handleOpenAIError (ThrownValue.apiError (some 401) m)
      = a ++ "Invalid API key" ++ b) := by
  refine ⟨fun m => rfl, fun m => rfl, fun m => rfl, fun m => rfl, fun m => rfl,
    fun st m h1 h2 h3 h4 h5 ht => ?_, fun st m h1 h2 h3 h4 h5 ht => ?_,
    fun m => rfl, fun v => rfl, fun p am e => rfl, fun q e => rfl, fun m => ?_⟩
  · simp [handleOpenAIError, h1, h2, h3, h4, h5, ht]
  · simp [handleOpenAIError, h1, h2, h3, h4, h5, ht]
  · refine ⟨"Error: ",
      ". Please verify your OPENAI_API_KEY at platform.openai.com/api-keys", ?_⟩
    rw [show handleOpenAIError (ThrownValue.apiError (some 401) m)
      = "Error: Invalid API key. Please verify your OPENAI_API_KEY at platform.openai.com/api-keys"
      from rfl]
    decide

/-- Witness for C9: the timeout and generic branches at concrete thrown
values with status 500. -/
theorem claim9_error_classification_w :
    containsTimeout "Connection Timeout hit" = true ∧
    handleOpenAIError (ThrownValue.apiError (some 500) "Connection Timeout hit")
      = "Error: Request timed out. Please try again with a shorter prompt." ∧
    handleOpenAIError (ThrownValue.apiError (some 500) "boom")
      = "Error: OpenAI API error (" ++ statusText (some 500) ++ "): " ++ "boom" := by
  refine ⟨by decide, ?_, ?_⟩
  · exact claim9_error_classification.2.2.2.2.2.1 (some 500) "Connection Timeout hit"
      (by decide) (by decide) (by decide) (by decide) (by decide) (by decide)
  · exact claim9_error_classification.2.2.2.2.2.2.1 (some 500) "boom"
      (by decide) (by decide) (by decide) (by decide) (by decide) (by decide)

end GptMcp
